import Mathlib

/-!
Shallow embedding of the travel-itinerary application (two source variants,
`src/BB.py` and `src/Phase1.py`) and verification of the specification claims.

The external text-generation capability (the OpenAI API) is modelled as a
function from the issued prompt to an outcome: either a successful text
completion or an API error carrying a message (the `OpenAIError` branch).
The external Unicode NFKD normalizer (`unicodedata.normalize`) and the
filesystem font lookup (`os.path.exists`) are likewise parameters of the
embedded functions, since their implementations are not part of the
repository.  Streamlit session state (`st.session_state["itinerary"]`) is
the single cache slot, modelled as `Option String`; a script run is split
into the button-click phase and the download phase, with the successive
values assigned to the cache slot recorded as an explicit trace.
-/

namespace TravelApp

/-- Outcome of one invocation of the external generation capability:
either a text completion or an `OpenAIError` with a message. -/
inductive ExtOutcome where
  | success (text : String)
  | apiError (msg : String)
deriving DecidableEq, Repr

/-- String append is associative (helper for substring reasoning). -/
theorem strAppend_assoc (a b c : String) : a ++ b ++ c = a ++ (b ++ c) :=
  String.ext (by simp [String.data_append])

/-- Appending the empty string on the left is the identity. -/
theorem strAppend_empty_left (a : String) : "" ++ a = a :=
  String.ext (by simp [String.data_append])

/-- Appending the empty string on the right is the identity. -/
theorem strAppend_empty_right (a : String) : a ++ "" = a :=
  String.ext (by simp [String.data_append])

/-- The code points that Python `str.strip()` removes (Unicode whitespace,
as in CPython). -/
def isPySpace (c : Char) : Bool :=
  c.toNat ∈ [0x09, 0x0A, 0x0B, 0x0C, 0x0D, 0x1C, 0x1D, 0x1E, 0x1F, 0x20,
    0x85, 0xA0, 0x1680, 0x2000, 0x2001, 0x2002, 0x2003, 0x2004, 0x2005,
    0x2006, 0x2007, 0x2008, 0x2009, 0x200A, 0x2028, 0x2029, 0x202F, 0x205F, 0x3000]

/-- Python `str.strip()`: remove leading and trailing whitespace. -/
def pyStrip (s : String) : String :=
  ⟨((s.data.dropWhile isPySpace).reverse.dropWhile isPySpace).reverse⟩

/-- A string of whitespace only (in particular the empty string) strips to
the empty string. -/
theorem pyStrip_of_all_space (s : String) (h : s.data.all isPySpace = true) :
    pyStrip s = "" := by
  apply String.ext
  simp only [pyStrip]
  have h1 : s.data.dropWhile isPySpace = [] :=
    List.dropWhile_eq_nil_iff.mpr (by simpa [List.all_eq_true] using h)
  simp [h1]

/-- Python `sep.join(l)` on a list of strings. -/
def pyJoin (sep : String) : List String → String
  | [] => ""
  | [x] => x
  | x :: y :: xs => x ++ sep ++ pyJoin sep (y :: xs)

/-- `containsStr s t` means `t` occurs as a contiguous substring of `s`. -/
def containsStr (s t : String) : Prop := ∃ a b : String, s = a ++ (t ++ b)

/-- Every string contains itself. -/
theorem containsStr_self (t : String) : containsStr t t :=
  ⟨"", "", by rw [strAppend_empty_right, strAppend_empty_left]⟩

/-- A substring of the left part is a substring of the concatenation. -/
theorem containsStr_appendLeft (x y t : String) (h : containsStr x t) :
    containsStr (x ++ y) t := by
  obtain ⟨a, b, rfl⟩ := h
  exact ⟨a, b ++ y, by rw [strAppend_assoc, strAppend_assoc]⟩

/-- A substring of the right part is a substring of the concatenation. -/
theorem containsStr_appendRight (x y t : String) (h : containsStr y t) :
    containsStr (x ++ y) t := by
  obtain ⟨a, b, rfl⟩ := h
  exact ⟨x ++ a, b, by rw [strAppend_assoc]⟩

/-- A member of a joined list occurs in the joined string. -/
theorem containsStr_pyJoin (sep : String) (l : List String) (t : String)
    (h : t ∈ l) : containsStr (pyJoin sep l) t := by
  induction l with
  | nil => cases h
  | cons x xs ih =>
    cases xs with
    | nil =>
      rcases List.mem_singleton.mp h with rfl
      exact containsStr_self t
    | cons y ys =>
      rcases List.mem_cons.mp h with rfl | hmem
      · exact containsStr_appendLeft _ _ _ (containsStr_appendLeft _ _ _ (containsStr_self t))
      · exact containsStr_appendRight _ _ _ (ih hmem)

/-- `", ".join(activities) if activities else "any"` — shared by both variants. -/
def activityStr (activities : List String) : String :=
  match activities with
  | [] => "any"
  | _ => pyJoin ", " activities

/-- Title line of the generated PDF, `f"{days}-Day Travel Itinerary for {location} in {month}"`,
identical in both variants. -/
def pdfTitle (days : Nat) (location month : String) : String :=
  toString days ++ "-Day Travel Itinerary for " ++ location ++ " in " ++ month

/-- The document assembled by `create_pdf` before serialization: the font
family used and the two text blocks written into it. -/
structure PdfDoc where
  fontFamily : String
  titleLine : String
  body : String
deriving DecidableEq, Repr

/-- Deterministic serialization of the assembled document to bytes,
modelling `pdf.output(dest=S).encode(latin-1)`. -/
def pdfSerialize (d : PdfDoc) : List Nat :=
  (d.fontFamily ++ "|" ++ d.titleLine ++ "|" ++ d.body).data.map Char.toNat

/-- Result of the button-click phase of one script run: the successive
values assigned to the session cache slot (starting with the incoming
value), the final value, how many times the generation client was invoked,
and whether the invalid-location warning was shown. -/
structure ButtonOut where
  cacheTrace : List (Option String)
  cacheFinal : Option String
  genCalls : Nat
  warned : Bool
deriving DecidableEq, Repr

/-- Result of the download phase of one script run: either a document is
produced and offered for download, or a font error was reported
(Phase1 only), or the informational cache-empty message is shown. -/
inductive RenderAttempt where
  | doc (d : PdfDoc)
  | fontError (msg : String)
  | cacheEmptyInfo (msg : String)
deriving DecidableEq, Repr

/-- One whole script run: button phase followed by download phase. -/
structure RunOut where
  button : ButtonOut
  render : RenderAttempt
deriving DecidableEq, Repr

end TravelApp

namespace BB

open TravelApp

/-- The prompt built inside `generate_itinerary` of `src/BB.py` (lines 32 to 39). -/
def prompt (location : String) (days : Nat) (month budget : String)
    (activities : List String) (travel_companion : String) : String :=
  "Generate a " ++ toString days ++ "-day travel itinerary for " ++ location ++
    " in " ++ month ++ " for a " ++ budget ++ " budget. " ++
    "Focus on " ++ activityStr activities ++ " activities for someone traveling " ++
    travel_companion ++ ". " ++
    "Include morning, afternoon, and evening suggestions with food options. " ++
    "Ensure popular and offbeat spots are covered with specific timings. " ++
    "Avoid displaying prices."

/-- `generate_itinerary` of `src/BB.py` (lines 31 to 49): invoke the
external capability on the prompt; on success return the stripped
completion text, on an `OpenAIError` return the error-message string.
Both branches return a plain string. -/
def generate_itinerary (ext : String → ExtOutcome) (location : String)
    (days : Nat) (month budget : String) (activities : List String)
    (travel_companion : String) : String :=
  match ext (prompt location days month budget activities travel_companion) with
  | ExtOutcome.success t => pyStrip t
  | ExtOutcome.apiError e => "⚠️ Unable to generate itinerary. Error: " ++ e

/-- `remove_non_ascii` of `src/BB.py` (lines 52 to 53): NFKD-normalize, then
drop every code point outside the ASCII range.  The NFKD normalizer of the
external `unicodedata` library is a parameter. -/
def remove_non_ascii (nfkd : String → String) (text : String) : String :=
  ⟨(nfkd text).data.filter (fun c => decide (c.toNat ≤ 127))⟩

/-- `create_pdf` of `src/BB.py` (lines 56 to 73): always uses the built-in
Latin font Arial, writes the title line and the sanitized itinerary body. -/
def create_pdf (nfkd : String → String) (itinerary location : String)
    (days : Nat) (month : String) : PdfDoc :=
  { fontFamily := "Arial"
    titleLine := pdfTitle days location month
    body := remove_non_ascii nfkd itinerary }

/-- The button-click block of `main` in `src/BB.py` (lines 99 to 107): on a
click with a location that strips to nonempty, the cache slot is set to
`None`, `generate_itinerary` is called, and its result is stored
unconditionally; otherwise a warning is shown and nothing changes. -/
def main_click (ext : String → ExtOutcome) (cache0 : Option String)
    (clicked : Bool) (location : String) (days : Nat) (month budget : String)
    (activities : List String) (travel_companion : String) : ButtonOut :=
  if clicked then
    if pyStrip location = "" then
      { cacheTrace := [cache0], cacheFinal := cache0, genCalls := 0, warned := true }
    else
      let cache1 : Option String := none
      let itinerary := generate_itinerary ext location days month budget activities travel_companion
      let cache2 : Option String := some itinerary
      { cacheTrace := [cache0, cache1, cache2], cacheFinal := cache2, genCalls := 1, warned := false }
  else
    { cacheTrace := [cache0], cacheFinal := cache0, genCalls := 0, warned := false }

/-- The download block of `main` in `src/BB.py` (lines 110 to 119): if the
cache slot is truthy (present and nonempty), build the PDF from the cached
text and the current widget values and offer it; otherwise show the
informational message. -/
def main_download (nfkd : String → String) (cache : Option String)
    (location : String) (days : Nat) (month : String) : RenderAttempt :=
  match cache with
  | some it =>
      if it = "" then
        RenderAttempt.cacheEmptyInfo "Generate your itinerary first to enable PDF download."
      else
        RenderAttempt.doc (create_pdf nfkd it location days month)
  | none => RenderAttempt.cacheEmptyInfo "Generate your itinerary first to enable PDF download."

/-- One whole script run of `src/BB.py`: button phase then download phase. -/
def run (ext : String → ExtOutcome) (nfkd : String → String)
    (cache0 : Option String) (clicked : Bool) (location : String) (days : Nat)
    (month budget : String) (activities : List String)
    (travel_companion : String) : RunOut :=
  let b := main_click ext cache0 clicked location days month budget activities travel_companion
  { button := b, render := main_download nfkd b.cacheFinal location days month }

end BB

namespace Phase1

open TravelApp

/-- The system message of the chat exchange in `src/Phase1.py` (line 46). -/
def systemMsg : String := "You are a helpful travel assistant."

/-- The prompt built inside `generate_itinerary` of `src/Phase1.py` (lines 31 to 41). -/
def prompt (location : String) (days : Nat) (month budget : String)
    (activities : List String) (travel_companion language : String) : String :=
  "Create a detailed and high-quality " ++ toString days ++
    "-day travel itinerary for " ++ location ++ " in " ++ month ++ " for a " ++
    budget ++ " budget. " ++
    "Include well-planned morning, afternoon, and evening activities for each day. " ++
    "Include top attractions, hidden gems, local experiences, and food recommendations for each meal. " ++
    "Provide specific timings and helpful tips. " ++
    "Focus on " ++ activityStr activities ++ " activities for someone traveling " ++
    travel_companion ++ ". " ++
    "Avoid showing prices. " ++
    "Make the itinerary feel like a guidebook with immersive descriptions. " ++
    "Respond in " ++ language ++ "."

/-- `generate_itinerary` of `src/Phase1.py` (lines 30 to 55): invoke the
external capability on the system/user message pair; on success return the
stripped completion, on an `OpenAIError` display the error and return
`None`. -/
def generate_itinerary (ext : String → String → ExtOutcome) (location : String)
    (days : Nat) (month budget : String) (activities : List String)
    (travel_companion language : String) : Option String :=
  match ext systemMsg (prompt location days month budget activities travel_companion language) with
  | ExtOutcome.success t => some (pyStrip t)
  | ExtOutcome.apiError _ => none

/-- The font file looked up by `create_pdf` of `src/Phase1.py` (lines 62 to 68). -/
def fontPath (language : String) : String :=
  if language = "Bengali" then "NotoSansBengali-Regular.ttf" else "DejaVuSans.ttf"

/-- The font family name chosen by `create_pdf` of `src/Phase1.py` (lines 62 to 68). -/
def fontName (language : String) : String :=
  if language = "Bengali" then "NotoBengali" else "DejaVu"

/-- `create_pdf` of `src/Phase1.py` (lines 58 to 87): choose a font file by
language; if the file is absent (`os.path.exists` is the `fontAvailable`
parameter) display an error and return `None`; otherwise write the title
line and the itinerary body, unsanitized, in the chosen font. -/
def create_pdf (fontAvailable : String → Bool) (itinerary location : String)
    (days : Nat) (month language : String) : Option PdfDoc :=
  if fontAvailable (fontPath language) then
    some
      { fontFamily := fontName language
        titleLine := pdfTitle days location month
        body := itinerary }
  else none

/-- The button-click block of `main` in `src/Phase1.py` (lines 111 to 121):
on a click with a location that strips to nonempty, the cache slot is set
to `None`, `generate_itinerary` is called, and the cache is populated only
when the result is truthy (present and nonempty). -/
def main_click (ext : String → String → ExtOutcome) (cache0 : Option String)
    (clicked : Bool) (location : String) (days : Nat) (month budget : String)
    (activities : List String) (travel_companion language : String) : ButtonOut :=
  if clicked then
    if pyStrip location = "" then
      { cacheTrace := [cache0], cacheFinal := cache0, genCalls := 0, warned := true }
    else
      let cache1 : Option String := none
      match generate_itinerary ext location days month budget activities travel_companion language with
      | some it =>
          if it = "" then
            { cacheTrace := [cache0, cache1], cacheFinal := cache1, genCalls := 1, warned := false }
          else
            { cacheTrace := [cache0, cache1, some it], cacheFinal := some it,
              genCalls := 1, warned := false }
      | none =>
          { cacheTrace := [cache0, cache1], cacheFinal := cache1, genCalls := 1, warned := false }
  else
    { cacheTrace := [cache0], cacheFinal := cache0, genCalls := 0, warned := false }

/-- The download block of `main` in `src/Phase1.py` (lines 124 to 134): if
the cache slot is truthy, call `create_pdf` with the cached text and the
current widget values; offer the PDF when one is produced, report the font
error when `create_pdf` returned `None`, and show the informational message
when the cache is empty. -/
def main_download (fontAvailable : String → Bool) (cache : Option String)
    (location : String) (days : Nat) (month language : String) : RenderAttempt :=
  match cache with
  | some it =>
      if it = "" then
        RenderAttempt.cacheEmptyInfo "Generate your itinerary to enable PDF download."
      else
        match create_pdf fontAvailable it location days month language with
        | some d => RenderAttempt.doc d
        | none => RenderAttempt.fontError ("⚠️ Font file " ++ fontPath language ++ " not found in app directory.")
  | none => RenderAttempt.cacheEmptyInfo "Generate your itinerary to enable PDF download."

/-- One whole script run of `src/Phase1.py`: button phase then download phase. -/
def run (ext : String → String → ExtOutcome) (fontAvailable : String → Bool)
    (cache0 : Option String) (clicked : Bool) (location : String) (days : Nat)
    (month budget : String) (activities : List String)
    (travel_companion language : String) : RunOut :=
  let b := main_click ext cache0 clicked location days month budget activities travel_companion language
  { button := b, render := main_download fontAvailable b.cacheFinal location days month language }

end Phase1

namespace TravelApp

/-- Bytes offered for download by a render attempt, when a document was produced. -/
def renderBytes : RenderAttempt → Option (List Nat)
  | RenderAttempt.doc d => some (pdfSerialize d)
  | RenderAttempt.fontError _ => none
  | RenderAttempt.cacheEmptyInfo _ => none

/-- The string directly to the right of an append is contained in it. -/
theorem containsStr_appendRight_self (x t : String) : containsStr (x ++ t) t :=
  containsStr_appendRight x t t (containsStr_self t)

/-- Substring containment is transitive. -/
theorem containsStr_trans (s u t : String) (h1 : containsStr s u)
    (h2 : containsStr u t) : containsStr s t := by
  obtain ⟨a, b, rfl⟩ := h1
  obtain ⟨c, d, rfl⟩ := h2
  exact ⟨a ++ c, d ++ b, by simp only [strAppend_assoc]⟩

/-- The activity string contains every selected activity. -/
theorem containsStr_activityStr (activities : List String) (a : String)
    (h : a ∈ activities) : containsStr (activityStr activities) a := by
  cases activities with
  | nil => cases h
  | cons x xs => exact containsStr_pyJoin ", " (x :: xs) a h

end TravelApp

open TravelApp

/-- Helper: the BB prompt contains the activity string. -/
theorem bb_prompt_contains_activityStr (location : String) (days : Nat)
    (month budget : String) (activities : List String) (travel_companion : String) :
    containsStr (BB.prompt location days month budget activities travel_companion)
      (activityStr activities) := by
  unfold BB.prompt
  iterate 6 apply containsStr_appendLeft
  exact containsStr_appendRight_self _ _

/-- Helper: the Phase1 prompt contains the activity string. -/
theorem phase1_prompt_contains_activityStr (location : String) (days : Nat)
    (month budget : String) (activities : List String)
    (travel_companion language : String) :
    containsStr (Phase1.prompt location days month budget activities travel_companion language)
      (activityStr activities) := by
  unfold Phase1.prompt
  iterate 8 apply containsStr_appendLeft
  exact containsStr_appendRight_self _ _

/-- Claim C6: for every TripRequest, the prompt built by each variant
contains the destination, the day count, the month name, the budget tier,
the companion type, and either the literal "any" (empty activity set) or
every selected activity; the Phase1 prompt also contains the target
language.  No selected field is omitted. -/
theorem c6_prompt_never_omits_fields (location : String) (days : Nat)
    (month budget : String) (activities : List String)
    (travel_companion language : String) :
    (containsStr (BB.prompt location days month budget activities travel_companion) location
      ∧ containsStr (BB.prompt location days month budget activities travel_companion) (toString days)
      ∧ containsStr (BB.prompt location days month budget activities travel_companion) month
      ∧ containsStr (BB.prompt location days month budget activities travel_companion) budget
      ∧ containsStr (BB.prompt location days month budget activities travel_companion) travel_companion
      ∧ (activities = [] →
          containsStr (BB.prompt location days month budget activities travel_companion) "any")
      ∧ (∀ a, a ∈ activities →
          containsStr (BB.prompt location days month budget activities travel_companion) a))
    ∧ (containsStr (Phase1.prompt location days month budget activities travel_companion language) location
      ∧ containsStr (Phase1.prompt location days month budget activities travel_companion language) (toString days)
      ∧ containsStr (Phase1.prompt location days month budget activities travel_companion language) month
      ∧ containsStr (Phase1.prompt location days month budget activities travel_companion language) budget
      ∧ containsStr (Phase1.prompt location days month budget activities travel_companion language) travel_companion
      ∧ containsStr (Phase1.prompt location days month budget activities travel_companion language) language
      ∧ (activities = [] →
          containsStr (Phase1.prompt location days month budget activities travel_companion language) "any")
      ∧ (∀ a, a ∈ activities →
          containsStr (Phase1.prompt location days month budget activities travel_companion language) a)) := by
  have hBBact := bb_prompt_contains_activityStr location days month budget activities travel_companion
  have hP1act := phase1_prompt_contains_activityStr location days month budget activities travel_companion language
  refine ⟨⟨?_, ?_, ?_, ?_, ?_, ?_, ?_⟩, ?_, ?_, ?_, ?_, ?_, ?_, ?_, ?_⟩
  · unfold BB.prompt
    iterate 13 apply containsStr_appendLeft
    exact containsStr_appendRight_self _ _
  · unfold BB.prompt
    iterate 15 apply containsStr_appendLeft
    exact containsStr_appendRight_self _ _
  · unfold BB.prompt
    iterate 11 apply containsStr_appendLeft
    exact containsStr_appendRight_self _ _
  · unfold BB.prompt
    iterate 9 apply containsStr_appendLeft
    exact containsStr_appendRight_self _ _
  · unfold BB.prompt
    iterate 4 apply containsStr_appendLeft
    exact containsStr_appendRight_self _ _
  · intro h
    subst h
    exact hBBact
  · intro a ha
    exact containsStr_trans _ _ _ hBBact (containsStr_activityStr activities a ha)
  · unfold Phase1.prompt
    iterate 18 apply containsStr_appendLeft
    exact containsStr_appendRight_self _ _
  · unfold Phase1.prompt
    iterate 20 apply containsStr_appendLeft
    exact containsStr_appendRight_self _ _
  · unfold Phase1.prompt
    iterate 16 apply containsStr_appendLeft
    exact containsStr_appendRight_self _ _
  · unfold Phase1.prompt
    iterate 14 apply containsStr_appendLeft
    exact containsStr_appendRight_self _ _
  · unfold Phase1.prompt
    iterate 6 apply containsStr_appendLeft
    exact containsStr_appendRight_self _ _
  · unfold Phase1.prompt
    iterate 1 apply containsStr_appendLeft
    exact containsStr_appendRight_self _ _
  · intro h
    subst h
    exact hP1act
  · intro a ha
    exact containsStr_trans _ _ _ hP1act (containsStr_activityStr activities a ha)

/-- Witness for C6: a concrete empty activity set yields "any" in the BB
prompt, and a concrete selected activity appears in the Phase1 prompt. -/
theorem c6_witness :
    containsStr (BB.prompt "Kyoto" 3 "April" "Mid-range" [] "Couple") "any"
    ∧ containsStr (Phase1.prompt "Kyoto" 3 "April" "Mid-range" ["Cultural", "Food Tour"] "Couple" "English") "Cultural" :=
  ⟨(c6_prompt_never_omits_fields "Kyoto" 3 "April" "Mid-range" [] "Couple" "English").1.2.2.2.2.2.1 rfl,
   (c6_prompt_never_omits_fields "Kyoto" 3 "April" "Mid-range" ["Cultural", "Food Tour"] "Couple" "English").2.2.2.2.2.2.2.2 "Cultural" (by decide)⟩

/-- Claim C7: on a submission whose destination is empty or whitespace-only,
both variants reject before any generation call: the generation client is
never invoked (zero calls), the warning is shown, and the cache is
untouched. -/
theorem c7_blank_location_rejected (ext1 : String → ExtOutcome)
    (ext2 : String → String → ExtOutcome) (cache0 cache0b : Option String)
    (location : String) (days : Nat) (month budget : String)
    (activities : List String) (travel_companion language : String)
    (h : location.data.all isPySpace = true) :
    BB.main_click ext1 cache0 true location days month budget activities travel_companion
      = { cacheTrace := [cache0], cacheFinal := cache0, genCalls := 0, warned := true }
    ∧ Phase1.main_click ext2 cache0b true location days month budget activities travel_companion language
      = { cacheTrace := [cache0b], cacheFinal := cache0b, genCalls := 0, warned := true } := by
  have hs := pyStrip_of_all_space location h
  constructor
  · simp [BB.main_click, hs]
  · simp [Phase1.main_click, hs]

/-- Witness for C7: a concrete whitespace-only destination. -/
theorem c7_witness :
    ("  ".data.all isPySpace = true)
    ∧ BB.main_click (fun _ => ExtOutcome.success "text") none true "  " 3 "April" "Mid-range" [] "Couple"
        = { cacheTrace := [none], cacheFinal := none, genCalls := 0, warned := true }
    ∧ Phase1.main_click (fun _ _ => ExtOutcome.success "text") none true "  " 3 "April" "Mid-range" [] "Couple" "English"
        = { cacheTrace := [none], cacheFinal := none, genCalls := 0, warned := true } :=
  ⟨by decide,
   (c7_blank_location_rejected (fun _ => ExtOutcome.success "text")
     (fun _ _ => ExtOutcome.success "text") none none "  " 3 "April" "Mid-range" [] "Couple" "English" (by decide)).1,
   (c7_blank_location_rejected (fun _ => ExtOutcome.success "text")
     (fun _ _ => ExtOutcome.success "text") none none "  " 3 "April" "Mid-range" [] "Couple" "English" (by decide)).2⟩

/-- Claim C8: the sanitizer only ever emits ASCII characters — for every
input string every character of `remove_non_ascii` is in the ASCII range,
and hence the body of every document assembled by the BB renderer (which
always takes the sanitizing Latin-font path) is pure ASCII. -/
theorem c8_sanitizer_ascii_only (nfkd : String → String) (s itinerary location : String)
    (days : Nat) (month : String) :
    (BB.remove_non_ascii nfkd s).data.all (fun c => decide (c.toNat ≤ 127)) = true
    ∧ (BB.create_pdf nfkd itinerary location days month).body.data.all
        (fun c => decide (c.toNat ≤ 127)) = true := by
  constructor
  · rw [List.all_eq_true]
    intro c hc
    have hc2 : c ∈ (nfkd s).data.filter (fun c => decide (c.toNat ≤ 127)) := hc
    exact (List.mem_filter.mp hc2).2
  · rw [List.all_eq_true]
    intro c hc
    have hc2 : c ∈ (nfkd itinerary).data.filter (fun c => decide (c.toNat ≤ 127)) := hc
    exact (List.mem_filter.mp hc2).2

/-- Claim C9: rendering is deterministic, idempotent and read-only — a
script run that only renders (no click) leaves the cache unchanged and
never invokes generation, and repeating it from the resulting state yields
byte-identical download output in both variants. -/
theorem c9_render_idempotent (ext1 : String → ExtOutcome) (nfkd : String → String)
    (ext2 : String → String → ExtOutcome) (fontAvailable : String → Bool)
    (cache0 cache0b : Option String) (location : String) (days : Nat)
    (month budget : String) (activities : List String)
    (travel_companion language : String) :
    renderBytes (BB.run ext1 nfkd cache0 false location days month budget activities travel_companion).render
      = renderBytes (BB.run ext1 nfkd
          (BB.run ext1 nfkd cache0 false location days month budget activities travel_companion).button.cacheFinal
          false location days month budget activities travel_companion).render
    ∧ (BB.run ext1 nfkd cache0 false location days month budget activities travel_companion).button.cacheFinal = cache0
    ∧ (BB.run ext1 nfkd cache0 false location days month budget activities travel_companion).button.genCalls = 0
    ∧ renderBytes (Phase1.run ext2 fontAvailable cache0b false location days month budget activities travel_companion language).render
      = renderBytes (Phase1.run ext2 fontAvailable
          (Phase1.run ext2 fontAvailable cache0b false location days month budget activities travel_companion language).button.cacheFinal
          false location days month budget activities travel_companion language).render
    ∧ (Phase1.run ext2 fontAvailable cache0b false location days month budget activities travel_companion language).button.cacheFinal = cache0b
    ∧ (Phase1.run ext2 fontAvailable cache0b false location days month budget activities travel_companion language).button.genCalls = 0 :=
  ⟨rfl, rfl, rfl, rfl, rfl, rfl⟩

/-- Claim C10: the sanitizer is idempotent.  The external NFKD normalizer
is a parameter; the hypothesis records the property of Unicode NFKD that
an all-ASCII string is already normalized (ASCII characters have no
decompositions), which is what the second application relies on. -/
theorem c10_remove_non_ascii_idempotent (nfkd : String → String)
    (hfix : ∀ t : String, t.data.all (fun c => decide (c.toNat ≤ 127)) = true → nfkd t = t)
    (s : String) :
    BB.remove_non_ascii nfkd (BB.remove_non_ascii nfkd s) = BB.remove_non_ascii nfkd s := by
  have hascii : (BB.remove_non_ascii nfkd s).data.all (fun c => decide (c.toNat ≤ 127)) = true := by
    rw [List.all_eq_true]
    intro c hc
    have hc2 : c ∈ (nfkd s).data.filter (fun c => decide (c.toNat ≤ 127)) := hc
    exact (List.mem_filter.mp hc2).2
  have hkey : nfkd (BB.remove_non_ascii nfkd s) = BB.remove_non_ascii nfkd s := hfix _ hascii
  show String.mk ((nfkd (BB.remove_non_ascii nfkd s)).data.filter (fun c => decide (c.toNat ≤ 127)))
    = BB.remove_non_ascii nfkd s
  rw [hkey]
  apply String.ext
  show ((nfkd s).data.filter (fun c => decide (c.toNat ≤ 127))).filter (fun c => decide (c.toNat ≤ 127))
    = (nfkd s).data.filter (fun c => decide (c.toNat ≤ 127))
  apply List.filter_eq_self.mpr
  intro a ha
  exact (List.mem_filter.mp ha).2

/-- Witness for C10: the identity normalizer fixes all-ASCII strings, and
sanitizing a concrete string twice equals sanitizing it once. -/
theorem c10_witness :
    (∀ t : String, t.data.all (fun c => decide (c.toNat ≤ 127)) = true → (fun x : String => x) t = t)
    ∧ BB.remove_non_ascii (fun x => x) (BB.remove_non_ascii (fun x => x) "café au lait")
        = BB.remove_non_ascii (fun x => x) "café au lait" :=
  ⟨fun _ _ => rfl, c10_remove_non_ascii_idempotent (fun x => x) (fun _ _ => rfl) "café au lait"⟩

/-- Counterexample to claim C1: in the BB variant the value returned after
an external failure is a plain string equal to what a successful completion
with the same text would return, so no caller-side discriminator can tell
failures from successes — the result is not a tagged `Ok`/`Failed` value. -/
theorem c1_counterexample :
    ¬ ∃ isFailed : String → Bool,
      ∀ ext : String → ExtOutcome,
        isFailed (BB.generate_itinerary ext "Kyoto" 3 "April" "Mid-range" [] "Couple")
          = (match ext (BB.prompt "Kyoto" 3 "April" "Mid-range" [] "Couple") with
             | ExtOutcome.success _ => false
             | ExtOutcome.apiError _ => true) := by
  rintro ⟨f, hf⟩
  have h1 : f (BB.generate_itinerary (fun _ => ExtOutcome.apiError "Invalid API key")
      "Kyoto" 3 "April" "Mid-range" [] "Couple") = true :=
    hf (fun _ => ExtOutcome.apiError "Invalid API key")
  have h2 : f (BB.generate_itinerary
      (fun _ => ExtOutcome.success "⚠️ Unable to generate itinerary. Error: Invalid API key")
      "Kyoto" 3 "April" "Mid-range" [] "Couple") = false :=
    hf (fun _ => ExtOutcome.success "⚠️ Unable to generate itinerary. Error: Invalid API key")
  have e : BB.generate_itinerary
      (fun _ => ExtOutcome.success "⚠️ Unable to generate itinerary. Error: Invalid API key")
      "Kyoto" 3 "April" "Mid-range" [] "Couple"
      = BB.generate_itinerary (fun _ => ExtOutcome.apiError "Invalid API key")
      "Kyoto" 3 "April" "Mid-range" [] "Couple" := by decide
  rw [e, h1] at h2
  exact Bool.noConfusion h2

/-- Claim C1 (amended): neither variant raises past its boundary — every
simulated outcome yields a returned value.  Phase1 returns a result the
caller can distinguish: `some` of the trimmed text on success and `none` on
failure (the reason is displayed, not returned).  BB returns the trimmed
text on success and the untagged error-message string on failure. -/
theorem c1_generate_tagged_amended (ext1 : String → ExtOutcome)
    (ext2 : String → String → ExtOutcome) (location : String) (days : Nat)
    (month budget : String) (activities : List String)
    (travel_companion language : String) :
    (∀ t, ext2 Phase1.systemMsg (Phase1.prompt location days month budget activities travel_companion language) = ExtOutcome.success t →
      Phase1.generate_itinerary ext2 location days month budget activities travel_companion language = some (pyStrip t))
    ∧ (∀ e, ext2 Phase1.systemMsg (Phase1.prompt location days month budget activities travel_companion language) = ExtOutcome.apiError e →
      Phase1.generate_itinerary ext2 location days month budget activities travel_companion language = none)
    ∧ (∀ t, ext1 (BB.prompt location days month budget activities travel_companion) = ExtOutcome.success t →
      BB.generate_itinerary ext1 location days month budget activities travel_companion = pyStrip t)
    ∧ (∀ e, ext1 (BB.prompt location days month budget activities travel_companion) = ExtOutcome.apiError e →
      BB.generate_itinerary ext1 location days month budget activities travel_companion
        = "⚠️ Unable to generate itinerary. Error: " ++ e) := by
  refine ⟨?_, ?_, ?_, ?_⟩ <;> intro x hx <;>
    simp [Phase1.generate_itinerary, BB.generate_itinerary, hx]

/-- Witness for the amended C1: a concrete failing external capability
makes Phase1 return `none`. -/
theorem c1_amended_witness :
    ((fun _ _ => ExtOutcome.apiError "Invalid API key") Phase1.systemMsg
        (Phase1.prompt "Kyoto" 3 "April" "Mid-range" [] "Couple" "English")
      = ExtOutcome.apiError "Invalid API key")
    ∧ Phase1.generate_itinerary (fun _ _ => ExtOutcome.apiError "Invalid API key")
        "Kyoto" 3 "April" "Mid-range" [] "Couple" "English" = none :=
  ⟨rfl,
   (c1_generate_tagged_amended (fun _ => ExtOutcome.success "hi")
     (fun _ _ => ExtOutcome.apiError "Invalid API key")
     "Kyoto" 3 "April" "Mid-range" [] "Couple" "English").2.1 "Invalid API key" rfl⟩

/-- Counterexample to claim C2: in the BB variant an authentication failure
still populates the cache — after the cycle the slot holds the error
message rather than remaining empty. -/
theorem c2_counterexample :
    (BB.main_click (fun _ => ExtOutcome.apiError "Invalid API key") none true
        "Kyoto" 3 "April" "Mid-range" [] "Couple").cacheFinal
      = some "⚠️ Unable to generate itinerary. Error: Invalid API key" := by decide

/-- Claim C2 (amended): both variants clear the cache slot at the start of
every generation attempt.  In Phase1 a failed external call leaves the
cache empty at the end of the cycle and a subsequent render attempt is
rejected with the cache-empty message; in BB the slot is instead populated
with whatever string the generation client returned. -/
theorem c2_cache_lifecycle_amended (ext1 : String → ExtOutcome)
    (ext2 : String → String → ExtOutcome) (fontAvailable : String → Bool)
    (cache0 : Option String) (location : String) (days : Nat)
    (month budget : String) (activities : List String)
    (travel_companion language : String) (e : String)
    (hloc : ¬ (pyStrip location = ""))
    (hfail : ext2 Phase1.systemMsg (Phase1.prompt location days month budget activities travel_companion language) = ExtOutcome.apiError e) :
    (Phase1.main_click ext2 cache0 true location days month budget activities travel_companion language).cacheTrace
      = [cache0, none]
    ∧ (Phase1.main_click ext2 cache0 true location days month budget activities travel_companion language).cacheFinal
      = none
    ∧ Phase1.main_download fontAvailable none location days month language
      = RenderAttempt.cacheEmptyInfo "Generate your itinerary to enable PDF download."
    ∧ (BB.main_click ext1 cache0 true location days month budget activities travel_companion).cacheTrace.get? 1
      = some none := by
  have hgen : Phase1.generate_itinerary ext2 location days month budget activities travel_companion language = none := by
    simp [Phase1.generate_itinerary, hfail]
  refine ⟨?_, ?_, rfl, ?_⟩
  · simp [Phase1.main_click, hloc, hgen]
  · simp [Phase1.main_click, hloc, hgen]
  · simp [BB.main_click, hloc]

/-- Witness for the amended C2: a concrete failed cycle in Phase1 leaves
the cache empty and the render attempt rejected. -/
theorem c2_amended_witness :
    (¬ (pyStrip "Kyoto" = ""))
    ∧ ((fun _ _ => ExtOutcome.apiError "Invalid API key") Phase1.systemMsg
        (Phase1.prompt "Kyoto" 3 "April" "Mid-range" [] "Couple" "English")
      = ExtOutcome.apiError "Invalid API key")
    ∧ ((Phase1.main_click (fun _ _ => ExtOutcome.apiError "Invalid API key") none true
        "Kyoto" 3 "April" "Mid-range" [] "Couple" "English").cacheTrace = [none, none]
      ∧ (Phase1.main_click (fun _ _ => ExtOutcome.apiError "Invalid API key") none true
        "Kyoto" 3 "April" "Mid-range" [] "Couple" "English").cacheFinal = none
      ∧ Phase1.main_download (fun _ => true) none "Kyoto" 3 "April" "English"
        = RenderAttempt.cacheEmptyInfo "Generate your itinerary to enable PDF download."
      ∧ (BB.main_click (fun _ => ExtOutcome.success "hi") none true
        "Kyoto" 3 "April" "Mid-range" [] "Couple").cacheTrace.get? 1 = some none) :=
  ⟨by decide, rfl,
   c2_cache_lifecycle_amended (fun _ => ExtOutcome.success "hi")
     (fun _ _ => ExtOutcome.apiError "Invalid API key") (fun _ => true) none
     "Kyoto" 3 "April" "Mid-range" [] "Couple" "English" "Invalid API key"
     (by decide) rfl⟩

/-- Counterexample to claim C3: in the BB variant the renderer IS run on a
cache left behind by a failed generation — the failed cycle leaves the
error message in the slot and the download phase produces a document from
it instead of signalling a violation. -/
theorem c3_counterexample :
    BB.main_download (fun x => x)
        (BB.main_click (fun _ => ExtOutcome.apiError "Invalid API key") none true
          "Kyoto" 3 "April" "Mid-range" [] "Couple").cacheFinal
        "Kyoto" 3 "April"
      = RenderAttempt.doc
          { fontFamily := "Arial"
            titleLine := "3-Day Travel Itinerary for Kyoto in April"
            body := " Unable to generate itinerary. Error: Invalid API key" } := by decide

/-- Claim C3 (amended): an empty cache is never rendered — both variants
reject it with the informational message — and in Phase1 a populated cache
can only have come from a successful external completion, so every Phase1
document is produced from an `Ok` result.  In BB, by contrast, a failed
generation leaves its error text in the cache and that text is rendered. -/
theorem c3_render_precondition_amended (nfkd : String → String)
    (fontAvailable : String → Bool) (ext2 : String → String → ExtOutcome)
    (clicked : Bool) (location lRender : String) (days dRender : Nat)
    (month mRender budget : String) (activities : List String)
    (travel_companion language lgRender : String) (it : String)
    (hcache : (Phase1.main_click ext2 none clicked location days month budget activities travel_companion language).cacheFinal = some it) :
    (∃ t, ext2 Phase1.systemMsg (Phase1.prompt location days month budget activities travel_companion language) = ExtOutcome.success t
        ∧ it = pyStrip t)
    ∧ BB.main_download nfkd none lRender dRender mRender
      = RenderAttempt.cacheEmptyInfo "Generate your itinerary first to enable PDF download."
    ∧ Phase1.main_download fontAvailable none lRender dRender mRender lgRender
      = RenderAttempt.cacheEmptyInfo "Generate your itinerary to enable PDF download." := by
  refine ⟨?_, rfl, rfl⟩
  cases clicked with
  | false => simp [Phase1.main_click] at hcache
  | true =>
    by_cases hloc : pyStrip location = ""
    · simp [Phase1.main_click, hloc] at hcache
    · cases hout : ext2 Phase1.systemMsg (Phase1.prompt location days month budget activities travel_companion language) with
      | success t =>
        have hgen : Phase1.generate_itinerary ext2 location days month budget activities travel_companion language
            = some (pyStrip t) := by
          simp [Phase1.generate_itinerary, hout]
        by_cases hts : pyStrip t = ""
        · simp [Phase1.main_click, hloc, hgen, hts] at hcache
        · simp [Phase1.main_click, hloc, hgen, hts] at hcache
          exact ⟨t, rfl, hcache.symm⟩
      | apiError e =>
        have hgen : Phase1.generate_itinerary ext2 location days month budget activities travel_companion language
            = none := by
          simp [Phase1.generate_itinerary, hout]
        simp [Phase1.main_click, hloc, hgen] at hcache

/-- Witness for the amended C3: a concrete successful cycle populates the
Phase1 cache, and that cache value is traced back to the completion. -/
theorem c3_amended_witness :
    ((Phase1.main_click (fun _ _ => ExtOutcome.success "Visit temples.") none true
        "Kyoto" 3 "April" "Mid-range" [] "Couple" "English").cacheFinal = some "Visit temples.")
    ∧ ((∃ t, (fun _ _ => ExtOutcome.success "Visit temples.") Phase1.systemMsg
          (Phase1.prompt "Kyoto" 3 "April" "Mid-range" [] "Couple" "English") = ExtOutcome.success t
          ∧ "Visit temples." = pyStrip t)
      ∧ BB.main_download (fun x => x) none "Kyoto" 3 "April"
        = RenderAttempt.cacheEmptyInfo "Generate your itinerary first to enable PDF download."
      ∧ Phase1.main_download (fun _ => true) none "Kyoto" 3 "April" "English"
        = RenderAttempt.cacheEmptyInfo "Generate your itinerary to enable PDF download.") :=
  ⟨by decide,
   c3_render_precondition_amended (fun x => x) (fun _ => true)
     (fun _ _ => ExtOutcome.success "Visit temples.") true "Kyoto" "Kyoto" 3 3
     "April" "April" "Mid-range" [] "Couple" "English" "English" "Visit temples."
     (by decide)⟩

/-- Counterexample to claim C4: with the required font file unavailable the
Phase1 renderer does not fall back to a Latin font and sanitize — it
produces no document at all, a hard failure, although a built-in Latin
fallback would be possible. -/
theorem c4_counterexample :
    Phase1.create_pdf (fun _ => false) "Day 1: temples and tea." "Kyoto" 3 "April" "Bengali"
      = none := rfl

/-- Claim C4 (amended): if the required font file is unavailable, the
Phase1 renderer reports the font error and produces no document — it has
no fallback or sanitization path.  The BB renderer never consults a font
file: it always uses the built-in Latin font Arial and always sanitizes
the body with `remove_non_ascii`. -/
theorem c4_font_fallback_amended (fontAvailable : String → Bool)
    (nfkd : String → String) (itinerary location : String) (days : Nat)
    (month language : String)
    (hfont : fontAvailable (Phase1.fontPath language) = false)
    (hne : ¬ (itinerary = "")) :
    Phase1.create_pdf fontAvailable itinerary location days month language = none
    ∧ Phase1.main_download fontAvailable (some itinerary) location days month language
      = RenderAttempt.fontError ("⚠️ Font file " ++ Phase1.fontPath language ++ " not found in app directory.")
    ∧ (BB.create_pdf nfkd itinerary location days month).fontFamily = "Arial"
    ∧ (BB.create_pdf nfkd itinerary location days month).body = BB.remove_non_ascii nfkd itinerary := by
  refine ⟨?_, ?_, rfl, rfl⟩
  · simp [Phase1.create_pdf, hfont]
  · simp [Phase1.main_download, hne, Phase1.create_pdf, hfont]

/-- Witness for the amended C4: concrete absent font file. -/
theorem c4_amended_witness :
    ((fun _ : String => false) (Phase1.fontPath "Bengali") = false)
    ∧ (¬ ("Day 1: temples and tea." = ""))
    ∧ (Phase1.create_pdf (fun _ => false) "Day 1: temples and tea." "Kyoto" 3 "April" "Bengali" = none
      ∧ Phase1.main_download (fun _ => false) (some "Day 1: temples and tea.") "Kyoto" 3 "April" "Bengali"
        = RenderAttempt.fontError ("⚠️ Font file " ++ Phase1.fontPath "Bengali" ++ " not found in app directory.")
      ∧ (BB.create_pdf (fun x => x) "Day 1: temples and tea." "Kyoto" 3 "April").fontFamily = "Arial"
      ∧ (BB.create_pdf (fun x => x) "Day 1: temples and tea." "Kyoto" 3 "April").body
        = BB.remove_non_ascii (fun x => x) "Day 1: temples and tea.") :=
  ⟨rfl, by decide,
   c4_font_fallback_amended (fun _ => false) (fun x => x) "Day 1: temples and tea."
     "Kyoto" 3 "April" "Bengali" rfl (by decide)⟩

/-- Counterexample to claim C5: the cache stores no TripRequest.  A first
run generates an itinerary for destination Kyoto; a second run with the
destination widget changed to Paris renders the cached Kyoto text under a
Paris title, so the rendered document is not built from the request that
generated its itinerary text. -/
theorem c5_counterexample :
    (BB.run (fun _ => ExtOutcome.success "Day 1: Fushimi Inari at 8am.") (fun x => x)
        ((BB.run (fun _ => ExtOutcome.success "Day 1: Fushimi Inari at 8am.") (fun x => x)
            none true "Kyoto" 3 "April" "Mid-range" [] "Couple").button.cacheFinal)
        false "Paris" 3 "April" "Mid-range" [] "Couple").render
      = RenderAttempt.doc
          { fontFamily := "Arial"
            titleLine := "3-Day Travel Itinerary for Paris in April"
            body := "Day 1: Fushimi Inari at 8am." } := by decide

/-- Claim C5 (amended): the cache slot holds at most one itinerary text and
not the request that produced it; the renderer reads the text from the
cache but the destination, days, month and (for Phase1) language from the
current widget values, so a rendered document combines the cached text with
whatever request fields are current at render time. -/
theorem c5_cache_text_only_amended (nfkd : String → String)
    (fontAvailable : String → Bool) (cache : Option String) (it location : String)
    (days : Nat) (month language : String)
    (hit : cache = some it) (hne : ¬ (it = "")) :
    BB.main_download nfkd cache location days month
      = RenderAttempt.doc
          { fontFamily := "Arial"
            titleLine := pdfTitle days location month
            body := BB.remove_non_ascii nfkd it }
    ∧ (fontAvailable (Phase1.fontPath language) = true →
        Phase1.main_download fontAvailable cache location days month language
          = RenderAttempt.doc
              { fontFamily := Phase1.fontName language
                titleLine := pdfTitle days location month
                body := it }) := by
  subst hit
  constructor
  · simp [BB.main_download, hne, BB.create_pdf]
  · intro hf
    simp [Phase1.main_download, hne, Phase1.create_pdf, hf]

/-- Witness for the amended C5: concrete cached text rendered under the
current widget metadata. -/
theorem c5_amended_witness :
    ((some "Day 1: Fushimi Inari at 8am." : Option String) = some "Day 1: Fushimi Inari at 8am.")
    ∧ (¬ ("Day 1: Fushimi Inari at 8am." = ""))
    ∧ (BB.main_download (fun x => x) (some "Day 1: Fushimi Inari at 8am.") "Paris" 3 "April"
        = RenderAttempt.doc
            { fontFamily := "Arial"
              titleLine := pdfTitle 3 "Paris" "April"
              body := BB.remove_non_ascii (fun x => x) "Day 1: Fushimi Inari at 8am." }
      ∧ ((fun _ : String => true) (Phase1.fontPath "English") = true →
          Phase1.main_download (fun _ => true) (some "Day 1: Fushimi Inari at 8am.") "Paris" 3 "April" "English"
            = RenderAttempt.doc
                { fontFamily := Phase1.fontName "English"
                  titleLine := pdfTitle 3 "Paris" "April"
                  body := "Day 1: Fushimi Inari at 8am." })) :=
  ⟨rfl, by decide,
   c5_cache_text_only_amended (fun x => x) (fun _ => true)
     (some "Day 1: Fushimi Inari at 8am.") "Day 1: Fushimi Inari at 8am."
     "Paris" 3 "April" "English" rfl (by decide)⟩
